import Mathlib

/-!
Verification of the Water-Potability Streamlit application (`app.py`).

The application is a single sequential script: load a pickled
(classifier, scaler) pair, collect nine bounded numeric inputs from the
sidebar, assemble them into a fixed-order vector, scale it, and on a
button press run the classifier and present the verdict.

This file shallowly embeds that script.  Rational numbers stand in for
the Python floats; the opaque trained artifact (scikit-learn scaler and
random-forest classifier, an external binary file, not source code of
this repository) is modelled from the spec as an abstract structure
carrying the contracts the spec assigns to it.  Everything else is
translated directly from `app.py`.
-/

namespace WaterPotability

/-- Error outcomes of `open("rf_model.pkl", "rb")` followed by
`pickle.load` (app.py lines 184-186): the file may be missing
(`FileNotFoundError`), present but unreadable (`PermissionError`), or
readable but not a valid pickle (`UnpicklingError`). -/
inductive LoadError
  | fileNotFound
  | permissionDenied
  | unpicklingError
deriving DecidableEq, Repr

/-- Per-request failure conditions of the inference step.
`shapeMismatch` is the app-level condition the spec design calls for in
section 4.4; `libraryValueError` is the unspecified error raised inside
the external library call when the vector dimensionality is wrong
(spec section 7(b) notes the reference code has no explicit check and
fails inside the library instead). -/
inductive InferError
  | shapeMismatch
  | libraryValueError
deriving DecidableEq, Repr

/-- Modelled from the spec: the external TrainedArtifact, the pickled
(scaler, classifier) pair.  Its code is not in this repository (it is a
serialized scikit-learn object), so it is taken as an abstract pair of
deterministic functions together with the contracts spec section 3
states for it: the classifier returns a label in \x7b0,1\x7d and a
probability pair (p_not_potable, p_potable) with p0 + p1 = 1.
`nFeatures` is the input dimensionality the fitted scaler expects. -/
structure Artifact where
  nFeatures : ℕ
  transformFn : List ℚ → List ℚ
  predictLabelFn : List ℚ → ℕ
  predictProbaFn : List ℚ → ℚ × ℚ
  predictLabel_mem : ∀ v, predictLabelFn v = 0 ∨ predictLabelFn v = 1
  predictProba_sum : ∀ v, (predictProbaFn v).1 + (predictProbaFn v).2 = 1

/-- State of the artifact file on disk when the script starts. -/
inductive FileState
  | missing
  | unreadable
  | corrupt
  | ok (a : Artifact)

/-- Outcome of `open` + `pickle.load` for each file state, following
Python semantics: a missing file raises `FileNotFoundError`, an
unopenable file raises `PermissionError`, a bad pickle raises
`UnpicklingError` (app.py lines 185-186). -/
def loadArtifact : FileState → Except LoadError Artifact
  | .missing => .error .fileNotFound
  | .unreadable => .error .permissionDenied
  | .corrupt => .error .unpicklingError
  | .ok a => .ok a

/-- The user-facing message shown by `st.error` when the model file is
not found (app.py line 188; emoji omitted). -/
def missingModelMessage : String :=
  "Model file not found! Please ensure 'rf_model.pkl' is in the same directory."

/-- Configuration of one `st.sidebar.number_input` widget: the
`min_value`, `max_value`, `value` (default) and `step` keyword
arguments (app.py lines 224-257). -/
structure NumberInputConfig where
  minValue : ℚ
  maxValue : ℚ
  defaultValue : ℚ
  step : ℚ
deriving DecidableEq, Repr

/-- pH Level widget (app.py line 224). -/
def phConfig : NumberInputConfig := ⟨0, 14, 7, 1/10⟩

/-- Hardness widget (app.py line 228). -/
def hardnessConfig : NumberInputConfig := ⟨0, 500, 150, 1⟩

/-- Solids widget (app.py line 232). -/
def solidsConfig : NumberInputConfig := ⟨0, 60000, 20000, 100⟩

/-- Chloramines widget (app.py line 236). -/
def chloraminesConfig : NumberInputConfig := ⟨0, 10, 7, 1/10⟩

/-- Sulfate widget (app.py line 240). -/
def sulfateConfig : NumberInputConfig := ⟨0, 600, 330, 1⟩

/-- Conductivity widget (app.py line 244). -/
def conductivityConfig : NumberInputConfig := ⟨0, 800, 400, 1⟩

/-- Organic Carbon widget (app.py line 248). -/
def organicCarbonConfig : NumberInputConfig := ⟨0, 30, 10, 1/10⟩

/-- Trihalomethanes widget (app.py line 252). -/
def trihalomethanesConfig : NumberInputConfig := ⟨0, 120, 60, 1⟩

/-- Turbidity widget (app.py line 256). -/
def turbidityConfig : NumberInputConfig := ⟨0, 10, 3, 1/10⟩

/-- The nine widget configurations in the order they appear in the
sidebar (app.py lines 224-257). -/
def widgetConfigs : List NumberInputConfig :=
  [phConfig, hardnessConfig, solidsConfig, chloraminesConfig, sulfateConfig,
   conductivityConfig, organicCarbonConfig, trihalomethanesConfig, turbidityConfig]

/-- Modelled from the spec: the value a bounded numeric widget forwards
downstream.  The widget itself is Streamlit library code, not part of
this repository; spec section 4.2 states that values outside
[min, max] are clamped or rejected by the input surface, which keeps
its current (initially default) value.  An in-range request is
forwarded unchanged; an out-of-range request is rejected and the
widget's default stands. -/
def collectField (c : NumberInputConfig) (requested : ℚ) : ℚ :=
  if c.minValue ≤ requested ∧ requested ≤ c.maxValue then requested else c.defaultValue

/-- The nine collected field values, named after the script variables
`ph`, `hardness`, ..., `turbidity` (app.py lines 224-257). -/
structure FieldValues where
  ph : ℚ
  hardness : ℚ
  solids : ℚ
  chloramines : ℚ
  sulfate : ℚ
  conductivity : ℚ
  organicCarbon : ℚ
  trihalomethanes : ℚ
  turbidity : ℚ
deriving DecidableEq, Repr

/-- The single row of `input_data = np.array([[ph, hardness, solids,
chloramines, sulfate, conductivity, organic_carbon, trihalomethanes,
turbidity]])` (app.py lines 261-262). -/
def assembleInput (f : FieldValues) : List ℚ :=
  [f.ph, f.hardness, f.solids, f.chloramines, f.sulfate,
   f.conductivity, f.organicCarbon, f.trihalomethanes, f.turbidity]

/-- The default field values of the nine widgets. -/
def defaultFields : FieldValues :=
  ⟨7, 150, 20000, 7, 330, 400, 10, 60, 3⟩

/-- The assembled default vector. -/
def defaultVec : List ℚ := assembleInput defaultFields

/-- `scaler.transform(input_data)` (app.py line 267).  Modelled from
the spec for the library-internal part: the fitted scaler is external
artifact code; per spec section 7(b) the reference has no explicit
dimensionality check of its own, and a vector whose length differs
from what the scaler expects makes the library call itself raise an
unspecified error (never an app-level `shapeMismatch`, and never a
silent coercion).  A matching vector is transformed deterministically
by the fitted transform. -/
def scalerTransform (a : Artifact) (v : List ℚ) : Except InferError (List ℚ) :=
  if v.length = a.nFeatures then .ok (a.transformFn v) else .error .libraryValueError

/-- The per-request prediction record: `pred[0]`, `prob[0]` and
`prob[1]` where `prob = model.predict_proba(input_scaled)[0]`
(app.py lines 286-289).  `probNotPotable` is `prob[0]`, `probPotable`
is `prob[1]`. -/
structure PredictionResult where
  label : ℕ
  probNotPotable : ℚ
  probPotable : ℚ
deriving DecidableEq, Repr

/-- The inference pipeline of the script: scale the assembled vector
(app.py line 267), then `model.predict` and `model.predict_proba` on
the same scaled vector (app.py lines 286-289). -/
def inferPipeline (a : Artifact) (v : List ℚ) : Except InferError PredictionResult :=
  match scalerTransform a v with
  | .error e => .error e
  | .ok scaled =>
      .ok { label := a.predictLabelFn scaled
            probNotPotable := (a.predictProbaFn scaled).1
            probPotable := (a.predictProbaFn scaled).2 }

/-- What the result section renders (app.py lines 296-332): the
headline narrative, the confidence shown under it, and the full
probability breakdown. -/
structure Verdict where
  narrative : String
  confidence : ℚ
  probPotable : ℚ
  probNotPotable : ℚ
deriving DecidableEq, Repr

/-- The result presenter (app.py lines 296-315): `if pred[0] == 1` show
the potable card with confidence `prob_potable`, otherwise the
not-potable card with confidence `prob_not_potable`. -/
def presentResult (r : PredictionResult) : Verdict :=
  if r.label = 1 then
    { narrative := "POTABLE WATER"
      confidence := r.probPotable
      probPotable := r.probPotable
      probNotPotable := r.probNotPotable }
  else
    { narrative := "NOT POTABLE"
      confidence := r.probNotPotable
      probPotable := r.probPotable
      probNotPotable := r.probNotPotable }

/-- Presentational state: the progress bar value last written and how
many `time.sleep(0.01)` ticks have elapsed. -/
structure UIState where
  progressShown : ℕ
  ticksSlept : ℕ
deriving DecidableEq, Repr

/-- One iteration of the loading-animation loop (app.py lines 281-283):
`time.sleep(0.01)` then `progress_bar.progress(i + 1)`. -/
def progressStep (s : UIState) (i : ℕ) : UIState :=
  { progressShown := i + 1, ticksSlept := s.ticksSlept + 1 }

/-- The full artificial-delay loop `for i in range(100)`
(app.py lines 281-283). -/
def progressLoop (s : UIState) : UIState :=
  (List.range 100).foldl progressStep s

/-- The predict-button handler body (app.py lines 277-291): run the
progress-bar delay loop, predict label and probabilities from the
already-scaled vector, clear the progress bar
(`progress_bar.empty()`), and present the result. -/
def handlePredict (a : Artifact) (scaled : List ℚ) (ui : UIState) : Verdict × UIState :=
  let ui1 := progressLoop ui
  let r : PredictionResult :=
    { label := a.predictLabelFn scaled
      probNotPotable := (a.predictProbaFn scaled).1
      probPotable := (a.predictProbaFn scaled).2 }
  (presentResult r, { ui1 with progressShown := 0 })

/-- The same handler with the artificial delay removed: only the
prediction and its presentation. -/
def handlePredictNoDelay (a : Artifact) (scaled : List ℚ) : Verdict :=
  presentResult
    { label := a.predictLabelFn scaled
      probNotPotable := (a.predictProbaFn scaled).1
      probPotable := (a.predictProbaFn scaled).2 }

/-- The `st.metric` delta expression for the "Safe to Drink" column
(app.py line 323): `prob_potable - 0.5 if prob_potable > 0.5 else
prob_potable - 0.5`. -/
def safeMetricDelta (probPotable : ℚ) : ℚ :=
  if probPotable > 1/2 then probPotable - 1/2 else probPotable - 1/2

/-- The `st.metric` delta expression for the "Unsafe to Drink" column
(app.py line 327): `prob_not_potable - 0.5 if prob_not_potable > 0.5
else prob_not_potable - 0.5`. -/
def unsafeMetricDelta (probNotPotable : ℚ) : ℚ :=
  if probNotPotable > 1/2 then probNotPotable - 1/2 else probNotPotable - 1/2

/-- The single delta-from-0.5 computation the spec proposes in place of
the duplicated conditional. -/
def deltaFromHalf (p : ℚ) : ℚ := p - 1/2

/-- Observable outcome of one top-to-bottom run of the script. -/
inductive ScriptOutcome
  | haltedWithMessage (msg : String)
  | uncaughtLoadError (e : LoadError)
  | uncaughtInferError (e : InferError)
  | rendered (result : Option Verdict) (ui : UIState)
deriving DecidableEq, Repr

/-- Whether the run ended in the clean `st.error` + `st.stop` halt. -/
def ScriptOutcome.isHalted : ScriptOutcome → Bool
  | .haltedWithMessage _ => true
  | _ => false

/-- Whether the run ended with an uncaught Python exception, which
Streamlit surfaces as a stack trace. -/
def ScriptOutcome.showsTraceback : ScriptOutcome → Bool
  | .uncaughtLoadError _ => true
  | .uncaughtInferError _ => true
  | _ => false

/-- Whether the run rendered the interactive page (inputs, button, and
possibly a result). -/
def ScriptOutcome.isRendered : ScriptOutcome → Bool
  | .rendered _ _ => true
  | _ => false

/-- One top-to-bottom run of `app.py`: try to load the artifact,
catching only `FileNotFoundError` with `st.error` + `st.stop`
(lines 184-189, before any input widget is created); render the
sidebar inputs and assemble `input_data` (lines 224-262); scale it at
module level (line 267); then, if the predict button was pressed, run
the handler (lines 277-291) and render its verdict.  Any exception
other than `FileNotFoundError` is uncaught and propagates. -/
def runScript (fs : FileState) (f : FieldValues) (buttonPressed : Bool)
    (ui : UIState) : ScriptOutcome :=
  match loadArtifact fs with
  | .error .fileNotFound => .haltedWithMessage missingModelMessage
  | .error e => .uncaughtLoadError e
  | .ok a =>
      match scalerTransform a (assembleInput f) with
      | .error e => .uncaughtInferError e
      | .ok scaled =>
          if buttonPressed then
            let out := handlePredict a scaled ui
            .rendered (some out.1) out.2
          else
            .rendered none ui

/-- A concrete well-formed artifact expecting 9 features, used to
instantiate the abstract contracts. -/
def idArtifact : Artifact where
  nFeatures := 9
  transformFn := fun v => v
  predictLabelFn := fun _ => 1
  predictProbaFn := fun _ => (3/10, 7/10)
  predictLabel_mem := fun _ => Or.inr rfl
  predictProba_sum := fun _ => by norm_num

/-- A concrete well-formed artifact whose fitted scaler expects 8
features, mismatching the 9-element assembled vector. -/
def artifact8 : Artifact where
  nFeatures := 8
  transformFn := fun v => v
  predictLabelFn := fun _ => 0
  predictProbaFn := fun _ => (1/2, 1/2)
  predictLabel_mem := fun _ => Or.inl rfl
  predictProba_sum := fun _ => by norm_num

/-- Helper: whatever value a bounded widget forwards lies within the
widget's inclusive bounds, provided its default does. -/
theorem collectField_in_range (c : NumberInputConfig)
    (hd : c.minValue ≤ c.defaultValue ∧ c.defaultValue ≤ c.maxValue) (x : ℚ) :
    c.minValue ≤ collectField c x ∧ collectField c x ≤ c.maxValue := by
  by_cases h : c.minValue ≤ x ∧ x ≤ c.maxValue
  · simp only [collectField, if_pos h]
    exact h
  · simpa [collectField, h] using hd

/-- Helper: the exact boundary values are forwarded unchanged. -/
theorem collectField_boundary (c : NumberInputConfig) (hmm : c.minValue ≤ c.maxValue) :
    collectField c c.minValue = c.minValue ∧ collectField c c.maxValue = c.maxValue := by
  constructor <;> simp [collectField, hmm]

/-- C1: the Result Presenter maps label 1 to the "potable" narrative
with confidence equal to p_potable and label 0 (any non-1 label) to the
"not potable" narrative with confidence equal to p_not_potable; the
narrative is a function of the label alone (no re-thresholding or
override), the probability breakdown is passed through unchanged, and
whenever the two class probabilities differ the reported confidence is
never the complementary probability. -/
theorem presenter_confidence_matches_label (r : PredictionResult) :
    (presentResult r).narrative = (if r.label = 1 then "POTABLE WATER" else "NOT POTABLE") ∧
    (presentResult r).confidence = (if r.label = 1 then r.probPotable else r.probNotPotable) ∧
    (presentResult r).probPotable = r.probPotable ∧
    (presentResult r).probNotPotable = r.probNotPotable ∧
    (r.probNotPotable ≠ r.probPotable →
      (presentResult r).confidence ≠ (if r.label = 1 then r.probNotPotable else r.probPotable)) := by
  by_cases h : r.label = 1
  · exact ⟨by simp [presentResult, h], by simp [presentResult, h],
      by simp [presentResult, h], by simp [presentResult, h],
      by simp [presentResult, h]; exact fun hne => Ne.symm hne⟩
  · exact ⟨by simp [presentResult, h], by simp [presentResult, h],
      by simp [presentResult, h], by simp [presentResult, h],
      by simp [presentResult, h]⟩

/-- Witness for C1 at label 1 with probabilities (0.3, 0.7). -/
theorem presenter_confidence_witness :
    (presentResult ⟨1, 3/10, 7/10⟩).narrative = "POTABLE WATER" ∧
    (presentResult ⟨1, 3/10, 7/10⟩).confidence = 7/10 ∧
    (presentResult ⟨1, 3/10, 7/10⟩).confidence ≠ 3/10 := by
  have h := presenter_confidence_matches_label ⟨1, 3/10, 7/10⟩
  refine ⟨by simpa using h.1, by simpa using h.2.1, by simpa using h.2.2.2.2 (by norm_num)⟩

/-- C2: the Feature Assembler packs the nine current field values into
a 9-element vector in exactly the fixed trained order pH, Hardness,
Solids, Chloramines, Sulfate, Conductivity, OrganicCarbon,
Trihalomethanes, Turbidity, and identical inputs always produce the
identical vector (it is a pure function with no side effects). -/
theorem assembler_fixed_order (f g : FieldValues) (h : f = g) :
    assembleInput f = [f.ph, f.hardness, f.solids, f.chloramines, f.sulfate,
      f.conductivity, f.organicCarbon, f.trihalomethanes, f.turbidity] ∧
    (assembleInput f).length = 9 ∧
    assembleInput f = assembleInput g := by
  subst h; exact ⟨rfl, rfl, rfl⟩

/-- Witness for C2 at the default field values. -/
theorem assembler_fixed_order_witness :
    assembleInput defaultFields = [7, 150, 20000, 7, 330, 400, 10, 60, 3] ∧
    (assembleInput defaultFields).length = 9 := by
  have h := assembler_fixed_order defaultFields defaultFields rfl
  exact ⟨h.1, h.2.1⟩

/-- C3 (amended): if the artifact file is absent, the resulting
`FileNotFoundError` is caught, and the app halts before accepting any
input with the clear user-facing message and no rendered UI; but if
the file exists and is unreadable, or deserialization fails, the
exception is not caught and surfaces as a stack trace rather than the
clean halt. -/
theorem artifact_error_handling (f : FieldValues) (b : Bool) (ui : UIState) :
    runScript .missing f b ui = .haltedWithMessage missingModelMessage ∧
    (runScript .missing f b ui).isRendered = false ∧
    (runScript .missing f b ui).showsTraceback = false ∧
    runScript .unreadable f b ui = .uncaughtLoadError .permissionDenied ∧
    (runScript .unreadable f b ui).showsTraceback = true ∧
    runScript .corrupt f b ui = .uncaughtLoadError .unpicklingError :=
  ⟨rfl, rfl, rfl, rfl, rfl, rfl⟩

/-- Counterexample for C3 as stated: with an existing but unreadable
artifact file, the run neither halts cleanly nor shows the clear
message; the uncaught exception is surfaced as a stack trace, because
app.py line 187 catches only `FileNotFoundError`. -/
theorem unreadable_artifact_traceback :
    (runScript .unreadable defaultFields false ⟨0, 0⟩).isHalted = false ∧
    (runScript .unreadable defaultFields false ⟨0, 0⟩).showsTraceback = true :=
  ⟨rfl, rfl⟩

/-- C4: the nine number-input configurations match the interface table
exactly (min, max, default, step — e.g. pH: 0.0, 14.0, 7.0, 0.1), and
for every one of them the input surface only forwards values within
the inclusive [min, max] bounds: the default is in range, any
forwarded value is in range, and the exact boundary values min and max
are accepted unchanged. -/
theorem input_bounds_enforced :
    widgetConfigs = [⟨0, 14, 7, 1/10⟩, ⟨0, 500, 150, 1⟩, ⟨0, 60000, 20000, 100⟩,
      ⟨0, 10, 7, 1/10⟩, ⟨0, 600, 330, 1⟩, ⟨0, 800, 400, 1⟩, ⟨0, 30, 10, 1/10⟩,
      ⟨0, 120, 60, 1⟩, ⟨0, 10, 3, 1/10⟩] ∧
    ∀ c ∈ widgetConfigs,
      (c.minValue ≤ c.defaultValue ∧ c.defaultValue ≤ c.maxValue) ∧
      (∀ x, c.minValue ≤ collectField c x ∧ collectField c x ≤ c.maxValue) ∧
      collectField c c.minValue = c.minValue ∧
      collectField c c.maxValue = c.maxValue := by
  refine ⟨rfl, ?_⟩
  intro c hc
  simp only [widgetConfigs, List.mem_cons, List.not_mem_nil, or_false] at hc
  rcases hc with rfl | rfl | rfl | rfl | rfl | rfl | rfl | rfl | rfl <;>
    refine ⟨by norm_num [phConfig, hardnessConfig, solidsConfig, chloraminesConfig,
        sulfateConfig, conductivityConfig, organicCarbonConfig, trihalomethanesConfig,
        turbidityConfig], ?_, ?_, ?_⟩ <;>
    first
      | exact fun x => collectField_in_range _ (by norm_num [phConfig, hardnessConfig,
          solidsConfig, chloraminesConfig, sulfateConfig, conductivityConfig,
          organicCarbonConfig, trihalomethanesConfig, turbidityConfig]) x
      | exact (collectField_boundary _ (by norm_num [phConfig, hardnessConfig,
          solidsConfig, chloraminesConfig, sulfateConfig, conductivityConfig,
          organicCarbonConfig, trihalomethanesConfig, turbidityConfig])).1
      | exact (collectField_boundary _ (by norm_num [phConfig, hardnessConfig,
          solidsConfig, chloraminesConfig, sulfateConfig, conductivityConfig,
          organicCarbonConfig, trihalomethanesConfig, turbidityConfig])).2

/-- Witness for C4 at the pH widget: the out-of-range request 20 is
not forwarded (the forwarded value stays within [0, 14]), and both
boundaries are accepted. -/
theorem input_bounds_enforced_witness :
    phConfig ∈ widgetConfigs ∧
    phConfig.minValue ≤ collectField phConfig 20 ∧
    collectField phConfig 20 ≤ phConfig.maxValue ∧
    collectField phConfig phConfig.minValue = phConfig.minValue ∧
    collectField phConfig phConfig.maxValue = phConfig.maxValue := by
  have hmem : phConfig ∈ widgetConfigs := by simp [widgetConfigs]
  have h := input_bounds_enforced.2 phConfig hmem
  exact ⟨hmem, (h.2.1 20).1, (h.2.1 20).2, h.2.2.1, h.2.2.2⟩

/-- C5: for every FeatureVector of the dimensionality the artifact
expects, the inference pipeline returns a label in \x7b0,1\x7d and a
probability pair (p_not_potable, p_potable) whose components sum to
1.0 within a tolerance of 1e-6. -/
theorem infer_wellformed (a : Artifact) (v : List ℚ) (h : v.length = a.nFeatures) :
    ∃ r : PredictionResult, inferPipeline a v = .ok r ∧
      (r.label = 0 ∨ r.label = 1) ∧
      |r.probNotPotable + r.probPotable - 1| ≤ 1/1000000 := by
  have ht : scalerTransform a v = .ok (a.transformFn v) := by
    simp [scalerTransform, h]
  refine ⟨{ label := a.predictLabelFn (a.transformFn v)
            probNotPotable := (a.predictProbaFn (a.transformFn v)).1
            probPotable := (a.predictProbaFn (a.transformFn v)).2 },
    by simp [inferPipeline, ht], a.predictLabel_mem _, ?_⟩
  show |(a.predictProbaFn (a.transformFn v)).1 + (a.predictProbaFn (a.transformFn v)).2 - 1|
      ≤ 1/1000000
  rw [a.predictProba_sum (a.transformFn v)]
  norm_num

/-- Witness for C5 at a concrete well-formed artifact and the default
input vector. -/
theorem infer_wellformed_witness :
    defaultVec.length = idArtifact.nFeatures ∧
    ∃ r : PredictionResult, inferPipeline idArtifact defaultVec = .ok r ∧
      (r.label = 0 ∨ r.label = 1) ∧
      |r.probNotPotable + r.probPotable - 1| ≤ 1/1000000 :=
  ⟨rfl, infer_wellformed idArtifact defaultVec rfl⟩

/-- C6: inference is deterministic — two runs with an identical
FeatureVector and an identical loaded artifact return the identical
label and probability pair, and the handler's verdict does not depend
on the presentational UI state the two runs start from. -/
theorem infer_deterministic (a a' : Artifact) (v v' s s' : List ℚ)
    (ui ui' : UIState) (ha : a = a') (hv : v = v') (hs : s = s') :
    inferPipeline a v = inferPipeline a' v' ∧
    (handlePredict a s ui).1 = (handlePredict a' s' ui').1 := by
  subst ha; subst hv; subst hs; exact ⟨rfl, rfl⟩

/-- Witness for C6: two runs from different UI states agree. -/
theorem infer_deterministic_witness :
    inferPipeline idArtifact defaultVec = inferPipeline idArtifact defaultVec ∧
    (handlePredict idArtifact defaultVec ⟨0, 0⟩).1 =
      (handlePredict idArtifact defaultVec ⟨7, 3⟩).1 :=
  infer_deterministic idArtifact idArtifact defaultVec defaultVec defaultVec defaultVec
    ⟨0, 0⟩ ⟨7, 3⟩ rfl rfl rfl

/-- C7 (amended): when the assembled vector's dimensionality does not
match what the fitted scaler expects, the run fails with the
unspecified error raised inside the library call, propagating as an
uncaught exception at script level (even before any button press);
the mismatched vector is never silently coerced, but no app-level
ShapeMismatch condition is raised or surfaced, because the code has no
explicit dimensionality check. -/
theorem shape_mismatch_uncaught (a : Artifact) (f : FieldValues) (b : Bool)
    (ui : UIState) (h : (assembleInput f).length ≠ a.nFeatures) :
    runScript (.ok a) f b ui = .uncaughtInferError .libraryValueError ∧
    inferPipeline a (assembleInput f) = .error .libraryValueError := by
  have ht : scalerTransform a (assembleInput f) = .error .libraryValueError := by
    simp [scalerTransform, h]
  exact ⟨by simp [runScript, loadArtifact, ht], by simp [inferPipeline, ht]⟩

/-- Witness for C7 (amended) at an artifact expecting 8 features fed
the 9-element default vector. -/
theorem shape_mismatch_uncaught_witness :
    (assembleInput defaultFields).length ≠ artifact8.nFeatures ∧
    (runScript (.ok artifact8) defaultFields true ⟨0, 0⟩ =
        .uncaughtInferError .libraryValueError ∧
      inferPipeline artifact8 (assembleInput defaultFields) = .error .libraryValueError) :=
  ⟨by decide, shape_mismatch_uncaught artifact8 defaultFields true ⟨0, 0⟩ (by decide)⟩

/-- Counterexample for C7 as stated: with an artifact expecting 8
features and the 9-element assembled default vector, the run ends in
an uncaught unspecified library error — a stack trace, not a surfaced
per-request rejection — and the error raised is not the ShapeMismatch
condition. -/
theorem shape_mismatch_counterexample :
    runScript (.ok artifact8) defaultFields true ⟨0, 0⟩ =
      .uncaughtInferError .libraryValueError ∧
    InferError.libraryValueError ≠ InferError.shapeMismatch ∧
    (ScriptOutcome.uncaughtInferError .libraryValueError).showsTraceback = true ∧
    (ScriptOutcome.uncaughtInferError .libraryValueError).isRendered = false :=
  ⟨rfl, by decide, rfl, rfl⟩

/-- C8: in the confidence-breakdown display, for every probability
value p the delta expression selected when p > 0.5 is extensionally
equal to the expression selected otherwise — both compute p − 0.5 —
so each conditional is redundant and equals the single delta-from-0.5
computation. -/
theorem delta_branches_equal (p : ℚ) :
    safeMetricDelta p = deltaFromHalf p ∧
    unsafeMetricDelta p = deltaFromHalf p ∧
    safeMetricDelta p = p - 1/2 ∧
    unsafeMetricDelta p = p - 1/2 := by
  refine ⟨?_, ?_, ?_, ?_⟩ <;>
    simp [safeMetricDelta, unsafeMetricDelta, deltaFromHalf, ite_self]

/-- C9: the artificial progress-bar delay is purely presentational —
the verdict returned by the handler equals the verdict with the delay
removed, and the handler's effect on the UI state is a function of the
prior UI state alone, independent of the artifact and of the input
vector (the delay loop neither reads nor writes them). -/
theorem delay_purely_presentational (a : Artifact) (scaled : List ℚ) (ui : UIState) :
    (handlePredict a scaled ui).1 = handlePredictNoDelay a scaled ∧
    (handlePredict a scaled ui).2 = { progressLoop ui with progressShown := 0 } :=
  ⟨rfl, rfl⟩

/-- C10: within one prediction request, the assembled inputs are
scaled by exactly one transform, and the rendered label and
probability breakdown are `predict` and `predict_proba` of that same
scaled vector, so the displayed verdict describes a single sample. -/
theorem single_scaled_sample (a : Artifact) (f : FieldValues) (ui : UIState)
    (h : (assembleInput f).length = a.nFeatures) :
    ∃ scaled, scalerTransform a (assembleInput f) = .ok scaled ∧
      inferPipeline a (assembleInput f) =
        .ok { label := a.predictLabelFn scaled
              probNotPotable := (a.predictProbaFn scaled).1
              probPotable := (a.predictProbaFn scaled).2 } ∧
      runScript (.ok a) f true ui =
        .rendered (some (presentResult
            { label := a.predictLabelFn scaled
              probNotPotable := (a.predictProbaFn scaled).1
              probPotable := (a.predictProbaFn scaled).2 }))
          { progressLoop ui with progressShown := 0 } := by
  have ht : scalerTransform a (assembleInput f) = .ok (a.transformFn (assembleInput f)) := by
    simp [scalerTransform, h]
  exact ⟨a.transformFn (assembleInput f), ht, by simp [inferPipeline, ht],
    by simp [runScript, loadArtifact, ht, handlePredict]⟩

/-- Witness for C10 at a concrete 9-feature artifact and the default
inputs. -/
theorem single_scaled_sample_witness :
    (assembleInput defaultFields).length = idArtifact.nFeatures ∧
    ∃ scaled, scalerTransform idArtifact (assembleInput defaultFields) = .ok scaled ∧
      inferPipeline idArtifact (assembleInput defaultFields) =
        .ok { label := idArtifact.predictLabelFn scaled
              probNotPotable := (idArtifact.predictProbaFn scaled).1
              probPotable := (idArtifact.predictProbaFn scaled).2 } ∧
      runScript (.ok idArtifact) defaultFields true ⟨0, 0⟩ =
        .rendered (some (presentResult
            { label := idArtifact.predictLabelFn scaled
              probNotPotable := (idArtifact.predictProbaFn scaled).1
              probPotable := (idArtifact.predictProbaFn scaled).2 }))
          { progressLoop ⟨0, 0⟩ with progressShown := 0 } :=
  ⟨rfl, single_scaled_sample idArtifact defaultFields ⟨0, 0⟩ rfl⟩

end WaterPotability
